import Mathlib

/-!
Shallow embedding of the `error-registry` library (src/errorRegistry.ts):
a configurable error registry with seeker-based key resolution, an
error-creator mapping, a handler mapping, and fallback chains for both
creation and handling.

JavaScript values relevant to the algorithms are modelled by `JSValue`
(with a single `vNull` constructor standing for both `null` and
`undefined`, the two values skipped by the `value != null` guard).
Numbers are modelled as integers, which covers every key and status code
the library's documentation and tests use.  Exceptions thrown by
user-supplied creators and handlers are modelled with `Except JSValue`.
-/

/-- A JavaScript value as observed by the registry's algorithms.
`vNull` stands for both `null` and `undefined`. -/
inductive JSValue where
  | vNull : JSValue
  | vBool : Bool → JSValue
  | vNum : Int → JSValue
  | vStr : String → JSValue
deriving DecidableEq, Repr

/-- JavaScript `String(value)` coercion on the modelled values.  The
registry only applies it to non-null values (keys) and to the `message`
field handed to the `Error` constructor. -/
def jsString : JSValue → String
  | .vNull => "null"
  | .vBool b => if b then "true" else "false"
  | .vNum n => toString n
  | .vStr s => s

/-- A data record passed to `createError`: either `null`/`undefined`, or
an object with string-named fields. -/
inductive Record where
  | null : Record
  | mk : List (String × JSValue) → Record
deriving DecidableEq, Repr

/-- Property read `record?.[name]` : a null/undefined record and an
absent property both yield `undefined` (modelled as `vNull`). -/
def getField : Record → String → JSValue
  | .null, _ => .vNull
  | .mk fields, name =>
    match fields.lookup name with
    | some v => v
    | none => .vNull

/-- An error instance: its constructor name (`error.constructor?.name`,
`none` when no constructor/name is reachable) and its own enumerable
properties (seekers read these). -/
structure JSError where
  ctorName : Option String
  fields : List (String × JSValue)
deriving DecidableEq, Repr

/-- Property read `error?.[name]` on an error instance. -/
def getErrField (e : JSError) (name : String) : JSValue :=
  match e.fields.lookup name with
  | some v => v
  | none => .vNull

/-- JS `Map.prototype.get`: first (unique) entry with the given key. -/
def mapGet {α : Type} : List (String × α) → String → Option α
  | [], _ => none
  | (k, v) :: rest, key => if k = key then some v else mapGet rest key

/-- JS `Map.prototype.set`: overwrite the entry if the key is present,
otherwise append it. -/
def mapSet {α : Type} : List (String × α) → String → α → List (String × α)
  | [], key, v => [(key, v)]
  | (k, w) :: rest, key, v =>
    if k = key then (key, v) :: rest else (k, w) :: mapSet rest key v

/-- JS `Map.prototype.delete`: remove the entry for the key if present. -/
def mapDelete {α : Type} : List (String × α) → String → List (String × α)
  | [], _ => []
  | (k, w) :: rest, key =>
    if k = key then mapDelete rest key else (k, w) :: mapDelete rest key

/-- An error creator (`ErrorCreator<TErrorData, TError>`): in the host
language a single callable that is either a class constructor or a
factory function.  `isFunction` models `typeof creator === 'function'`,
`hasPrototype` models `'prototype' in creator`; `construct` is the
behaviour of `new creator(data)` and `call` the behaviour of the plain
call `creator(data)`.  Either may throw (`Except.error`). -/
structure ErrorCreator where
  isFunction : Bool
  hasPrototype : Bool
  construct : Record → Except JSValue JSError
  call : Record → Except JSValue JSError

/-- A registered handler.  `hid` is an identity used to observe which
handler was invoked; `run` is the handler's own behaviour on the
argument list `(error, ...ctx)` and may throw or reject. -/
structure Handler where
  hid : Nat
  run : JSError → List JSValue → Except JSValue Unit

/-- The record of one handler invocation `handler(error, ...ctx)`:
which handler ran and the exact argument list it received. -/
structure Invocation where
  hid : Nat
  errArg : JSError
  ctxArgs : List JSValue
deriving Repr

/-- The mutable state captured by one registry instance: the seekers
list, the optional `baseError` creator, and the two `Map`s. -/
structure RegistryState where
  seekers : List String
  baseError : Option ErrorCreator
  errorRegistry : List (String × ErrorCreator)
  handlerRegistry : List (String × Handler)

/-- Function `createErrorFromCreator` (errorRegistry.ts): dispatch on
`typeof creator === 'function' && 'prototype' in creator` — a function
with a `prototype` property is invoked with `new`, anything else is
called as a plain function. -/
def createErrorFromCreator (creator : ErrorCreator) (data : Record) :
    Except JSValue JSError :=
  if creator.isFunction && creator.hasPrototype then
    creator.construct data
  else
    creator.call data

/-- The seeker loop of `create`: for each seeker in order, read
`data?.[seeker]`; when the value is non-null, stringify it and look it
up in the error-creator map; on a hit return the matched key and
creator, otherwise keep scanning. -/
def seekCreatorLoop (reg : List (String × ErrorCreator)) (data : Record) :
    List String → Option (String × ErrorCreator)
  | [] => none
  | seeker :: rest =>
    let value := getField data seeker
    if value ≠ .vNull then
      match mapGet reg (jsString value) with
      | some creator => some (jsString value, creator)
      | none => seekCreatorLoop reg data rest
    else
      seekCreatorLoop reg data rest

/-- The generic-`Error` last resort of `create`:
`new Error(data?.message ?? "Unknown error")`.  The `Error` constructor
stringifies a non-null argument; the instance's constructor name is
`"Error"` and its only own enumerable field is `message`. -/
def genericError (data : Record) : JSError :=
  { ctorName := some "Error"
    fields := [("message", .vStr
      (match getField data "message" with
       | .vNull => "Unknown error"
       | v => jsString v))] }

/-- The fallback chain of `create` after the seeker loop found no
creator: `baseError` when configured, else a generic `Error`. -/
def fallbackCreate (st : RegistryState) (data : Record) :
    Except JSValue JSError :=
  match st.baseError with
  | some b => createErrorFromCreator b data
  | none => .ok (genericError data)

/-- Function `create` (the registry's `createError`): run the seeker loop (the
code guards it with `seekers && seekers.length > 0`); invoke the found
creator, else fall back. -/
def create (st : RegistryState) (data : Record) : Except JSValue JSError :=
  match (if st.seekers.length > 0
         then seekCreatorLoop st.errorRegistry data st.seekers
         else none) with
  | some (_, creator) => createErrorFromCreator creator data
  | none => fallbackCreate st data

/-- Invocation `await handler(error, ...ctx)`: either the handler's own failure
propagates, or the invocation is recorded with the exact arguments. -/
def invokeHandler (h : Handler) (error : JSError) (ctx : List JSValue) :
    Except JSValue (Option Invocation) :=
  match h.run error ctx with
  | .ok _ => .ok (some ⟨h.hid, error, ctx⟩)
  | .error e => .error e

/-- The seeker loop of `handleError`, identical in structure to the one
in `create` but reading the error's properties and consulting the
handler map. -/
def seekHandlerLoop (hreg : List (String × Handler)) (error : JSError) :
    List String → Option (String × Handler)
  | [] => none
  | seeker :: rest =>
    let value := getErrField error seeker
    if value ≠ .vNull then
      match mapGet hreg (jsString value) with
      | some h => some (jsString value, h)
      | none => seekHandlerLoop hreg error rest
    else
      seekHandlerLoop hreg error rest

/-- The constructor-name fallback of `handleError`:
`const constructorName = error.constructor?.name; if (constructorName) …`
— the truthiness test skips a missing or empty name; on a map hit the
handler is invoked, otherwise the call resolves with no effect. -/
def ctorNameFallback (st : RegistryState) (error : JSError)
    (ctx : List JSValue) : Except JSValue (Option Invocation) :=
  match error.ctorName with
  | some name =>
    if name ≠ "" then
      match mapGet st.handlerRegistry name with
      | some h => invokeHandler h error ctx
      | none => .ok none
    else
      .ok none
  | none => .ok none

/-- Function `handleError`: seeker loop over the error's properties (guarded by
`seekers && seekers.length > 0`); invoke the first matching handler and
stop, else fall back to the constructor-name lookup. -/
def handleError (st : RegistryState) (error : JSError)
    (ctx : List JSValue) : Except JSValue (Option Invocation) :=
  match (if st.seekers.length > 0
         then seekHandlerLoop st.handlerRegistry error st.seekers
         else none) with
  | some (_, h) => invokeHandler h error ctx
  | none => ctorNameFallback st error ctx

/-- The construction-time configuration (`Config`): optional seekers,
optional `baseError`, and the initial error/handler entries (keys are
strings or numbers, modelled as `JSValue`s). -/
structure Config where
  seekers : Option (List String) := none
  baseError : Option ErrorCreator := none
  errors : List (JSValue × ErrorCreator) := []
  handlers : List (JSValue × Handler) := []

/-- Function `createErrorRegistry(config?)`: seekers default to
`["code", "status"]` when the config or the list is absent or the list
is empty (`config?.seekers && config.seekers.length > 0 ? … : default`);
the initial `errors` and `handlers` entries are inserted into the two
maps with `String(code)`-normalised keys. -/
def createErrorRegistry (config : Option Config) : RegistryState :=
  let defaultSeekers := ["code", "status"]
  let cfg := config.getD {}
  { seekers :=
      match config with
      | some c =>
        match c.seekers with
        | some l => if l.length > 0 then l else defaultSeekers
        | none => defaultSeekers
      | none => defaultSeekers
    baseError := cfg.baseError
    errorRegistry :=
      cfg.errors.foldl (fun m kc => mapSet m (jsString kc.1) kc.2) []
    handlerRegistry :=
      cfg.handlers.foldl (fun m kh => mapSet m (jsString kh.1) kh.2) [] }

/-- Method `registerError(key, creator)`: insert-or-overwrite under
`String(key)`. -/
def registerError (st : RegistryState) (key : JSValue)
    (creator : ErrorCreator) : RegistryState :=
  { st with errorRegistry := mapSet st.errorRegistry (jsString key) creator }

/-- Method `registerHandler(key, fn)`: insert-or-overwrite under
`String(key)`. -/
def registerHandler (st : RegistryState) (key : JSValue)
    (fn : Handler) : RegistryState :=
  { st with handlerRegistry := mapSet st.handlerRegistry (jsString key) fn }

/-- Modelled from the spec: the published registry surface also exposes
`unregisterError(key)` — documented in the repository's API reference
and exercised by its test suite, but the implementation file carrying it
is not among the provided sources.  Per the spec it removes the single
error-creator entry under the normalised key if present, a no-op when
absent. -/
def unregisterError (st : RegistryState) (key : JSValue) : RegistryState :=
  { st with errorRegistry := mapDelete st.errorRegistry (jsString key) }

/-- Modelled from the spec: `unregisterHandler(key)` — documented and
tested but its implementation file is not among the provided sources.
Removes the single handler entry under the normalised key if present. -/
def unregisterHandler (st : RegistryState) (key : JSValue) : RegistryState :=
  { st with handlerRegistry := mapDelete st.handlerRegistry (jsString key) }

/-- Modelled from the spec: `clear()` — documented and tested but its
implementation file is not among the provided sources.  Empties both
mappings. -/
def clear (st : RegistryState) : RegistryState :=
  { st with errorRegistry := [], handlerRegistry := [] }

/-! ## Helper lemmas -/

/-- The `seekers && seekers.length > 0` guard around the creator-side
seeker loop is redundant: the loop over an empty seekers list already
yields `none`. -/
theorem guardedSeekCreator_eq (reg : List (String × ErrorCreator))
    (data : Record) (l : List String) :
    (if l.length > 0 then seekCreatorLoop reg data l else none) =
      seekCreatorLoop reg data l := by
  cases l with
  | nil => simp [seekCreatorLoop]
  | cons s rest => simp

/-- Unfolding of `create` through the redundant guard. -/
theorem create_eq (st : RegistryState) (data : Record) :
    create st data =
      match seekCreatorLoop st.errorRegistry data st.seekers with
      | some (_, creator) => createErrorFromCreator creator data
      | none => fallbackCreate st data := by
  unfold create
  rw [guardedSeekCreator_eq]

/-- The guard around the handler-side seeker loop is redundant as well. -/
theorem guardedSeekHandler_eq (hreg : List (String × Handler))
    (error : JSError) (l : List String) :
    (if l.length > 0 then seekHandlerLoop hreg error l else none) =
      seekHandlerLoop hreg error l := by
  cases l with
  | nil => simp [seekHandlerLoop]
  | cons s rest => simp

/-- Unfolding of `handleError` through the redundant guard. -/
theorem handleError_eq (st : RegistryState) (error : JSError)
    (ctx : List JSValue) :
    handleError st error ctx =
      match seekHandlerLoop st.handlerRegistry error st.seekers with
      | some (_, h) => invokeHandler h error ctx
      | none => ctorNameFallback st error ctx := by
  unfold handleError
  rw [guardedSeekHandler_eq]

/-- Lookup in the empty map misses. -/
theorem mapGet_nil {α : Type} (key : String) :
    mapGet ([] : List (String × α)) key = none := rfl

/-- The creator-side seeker loop over an empty registry finds nothing. -/
theorem seekCreatorLoop_nil_reg (data : Record) (l : List String) :
    seekCreatorLoop [] data l = none := by
  induction l with
  | nil => rfl
  | cons s rest ih =>
    unfold seekCreatorLoop
    simp only [mapGet_nil, ih]
    split <;> rfl

/-- The handler-side seeker loop over an empty registry finds nothing. -/
theorem seekHandlerLoop_nil_reg (error : JSError) (l : List String) :
    seekHandlerLoop [] error l = none := by
  induction l with
  | nil => rfl
  | cons s rest ih =>
    unfold seekHandlerLoop
    simp only [mapGet_nil, ih]
    split <;> rfl

/-- One step of the creator-side seeker loop, unfolded. -/
theorem seekCreatorLoop_cons (reg : List (String × ErrorCreator))
    (data : Record) (s : String) (rest : List String) :
    seekCreatorLoop reg data (s :: rest) =
      (if getField data s ≠ .vNull then
        match mapGet reg (jsString (getField data s)) with
        | some creator => some (jsString (getField data s), creator)
        | none => seekCreatorLoop reg data rest
       else seekCreatorLoop reg data rest) := rfl

/-- A seeker whose value is null/undefined, or whose stringified value
misses the creator map, is skipped and the scan continues. -/
theorem seekCreatorLoop_skip (reg : List (String × ErrorCreator))
    (data : Record) (s : String) (rest : List String)
    (h : getField data s = .vNull ∨
         mapGet reg (jsString (getField data s)) = none) :
    seekCreatorLoop reg data (s :: rest) = seekCreatorLoop reg data rest := by
  rw [seekCreatorLoop_cons]
  rcases h with h | h
  · simp [h]
  · by_cases hnull : getField data s = JSValue.vNull
    · simp [hnull]
    · simp [hnull, h]

/-- A seeker with a non-null value whose stringified key hits the
creator map stops the scan with that key and creator. -/
theorem seekCreatorLoop_hit (reg : List (String × ErrorCreator))
    (data : Record) (s : String) (rest : List String) (c : ErrorCreator)
    (hnull : getField data s ≠ .vNull)
    (hget : mapGet reg (jsString (getField data s)) = some c) :
    seekCreatorLoop reg data (s :: rest) =
      some (jsString (getField data s), c) := by
  unfold seekCreatorLoop
  simp [hnull, hget]

/-- Skipping a whole block of seekers that are null or miss the map. -/
theorem seekCreatorLoop_append_skip (reg : List (String × ErrorCreator))
    (data : Record) (pre l : List String)
    (h : ∀ s ∈ pre, getField data s = .vNull ∨
         mapGet reg (jsString (getField data s)) = none) :
    seekCreatorLoop reg data (pre ++ l) = seekCreatorLoop reg data l := by
  induction pre with
  | nil => rfl
  | cons s rest ih =>
    rw [List.cons_append,
      seekCreatorLoop_skip reg data s (rest ++ l) (h s (by simp))]
    exact ih fun s' hs' => h s' (by simp [hs'])

/-- One step of the handler-side seeker loop, unfolded. -/
theorem seekHandlerLoop_cons (hreg : List (String × Handler))
    (error : JSError) (s : String) (rest : List String) :
    seekHandlerLoop hreg error (s :: rest) =
      (if getErrField error s ≠ .vNull then
        match mapGet hreg (jsString (getErrField error s)) with
        | some h => some (jsString (getErrField error s), h)
        | none => seekHandlerLoop hreg error rest
       else seekHandlerLoop hreg error rest) := rfl

/-- Handler-side analogue of `seekCreatorLoop_skip`. -/
theorem seekHandlerLoop_skip (hreg : List (String × Handler))
    (error : JSError) (s : String) (rest : List String)
    (h : getErrField error s = .vNull ∨
         mapGet hreg (jsString (getErrField error s)) = none) :
    seekHandlerLoop hreg error (s :: rest) = seekHandlerLoop hreg error rest := by
  rw [seekHandlerLoop_cons]
  rcases h with h | h
  · simp [h]
  · by_cases hnull : getErrField error s = JSValue.vNull
    · simp [hnull]
    · simp [hnull, h]

/-- Handler-side analogue of `seekCreatorLoop_hit`. -/
theorem seekHandlerLoop_hit (hreg : List (String × Handler))
    (error : JSError) (s : String) (rest : List String) (hh : Handler)
    (hnull : getErrField error s ≠ .vNull)
    (hget : mapGet hreg (jsString (getErrField error s)) = some hh) :
    seekHandlerLoop hreg error (s :: rest) =
      some (jsString (getErrField error s), hh) := by
  unfold seekHandlerLoop
  simp [hnull, hget]

/-- Handler-side analogue of `seekCreatorLoop_append_skip`. -/
theorem seekHandlerLoop_append_skip (hreg : List (String × Handler))
    (error : JSError) (pre l : List String)
    (h : ∀ s ∈ pre, getErrField error s = .vNull ∨
         mapGet hreg (jsString (getErrField error s)) = none) :
    seekHandlerLoop hreg error (pre ++ l) = seekHandlerLoop hreg error l := by
  induction pre with
  | nil => rfl
  | cons s rest ih =>
    rw [List.cons_append,
      seekHandlerLoop_skip hreg error s (rest ++ l) (h s (by simp))]
    exact ih fun s' hs' => h s' (by simp [hs'])

/-- Deleting a key makes its lookup miss. -/
theorem mapGet_mapDelete_self {α : Type} (m : List (String × α))
    (key : String) : mapGet (mapDelete m key) key = none := by
  induction m with
  | nil => rfl
  | cons p rest ih =>
    obtain ⟨k, v⟩ := p
    unfold mapDelete
    by_cases hk : k = key
    · simp [hk, ih]
    · simp [hk, mapGet, ih]

/-- The creator-side seeker loop finds nothing on a null/undefined
record: every property read yields `undefined`. -/
theorem seekCreatorLoop_null_record (reg : List (String × ErrorCreator))
    (l : List String) : seekCreatorLoop reg Record.null l = none := by
  induction l with
  | nil => rfl
  | cons s rest ih =>
    rw [seekCreatorLoop_skip reg Record.null s rest (Or.inl rfl)]
    exact ih

/-- A hit of the creator-side seeker loop is a hit of the map: the
returned key is bound to the returned creator. -/
theorem seekCreatorLoop_get_of_some (reg : List (String × ErrorCreator))
    (data : Record) (l : List String) (k : String) (c : ErrorCreator)
    (h : seekCreatorLoop reg data l = some (k, c)) : mapGet reg k = some c := by
  induction l with
  | nil => exact nomatch h
  | cons s rest ih =>
    rw [seekCreatorLoop_cons] at h
    by_cases hnull : getField data s = JSValue.vNull
    · rw [if_neg (by simp [hnull])] at h
      exact ih h
    · rw [if_pos hnull] at h
      cases hget : mapGet reg (jsString (getField data s)) with
      | some c' =>
        rw [hget] at h
        obtain ⟨hk, hc⟩ := Prod.mk.injEq .. ▸ Option.some.injEq .. ▸ h
        rw [← hk, hget, hc]
      | none =>
        rw [hget] at h
        exact ih h

/-! ## Claim theorems -/

/-- Claim C1: after `clear()` both mappings are empty — `createError`
falls through to `baseError` or the generic `Error` for every data
record, and `handleError` invokes no handler at all (it resolves with
no invocation) for every error and context. -/
theorem clear_empties_registries (st : RegistryState) (data : Record)
    (error : JSError) (ctx : List JSValue) :
    create (clear st) data = fallbackCreate st data ∧
    handleError (clear st) error ctx = Except.ok none := by
  constructor
  · rw [create_eq]
    have h1 : (clear st).errorRegistry = [] := rfl
    rw [h1, seekCreatorLoop_nil_reg]
    simp [fallbackCreate, clear]
  · rw [handleError_eq]
    have h2 : (clear st).handlerRegistry = [] := rfl
    rw [h2, seekHandlerLoop_nil_reg]
    unfold ctorNameFallback
    cases hname : error.ctorName with
    | none => rfl
    | some name =>
      by_cases hne : name = ""
      · simp [hne]
      · simp [hne, h2, mapGet_nil]

/-- Claim C9: a registry whose config omits `seekers`, and one whose
config passes the empty list, are the very same registry state as one
configured with `["code", "status"]`, hence `createError` and
`handleError` behave identically on them. -/
theorem seekers_default_equivalence (cfg : Config) (data : Record)
    (error : JSError) (ctx : List JSValue) :
    (createErrorRegistry (some { cfg with seekers := none }) =
      createErrorRegistry (some { cfg with seekers := some ["code", "status"] })) ∧
    (createErrorRegistry (some { cfg with seekers := some [] }) =
      createErrorRegistry (some { cfg with seekers := some ["code", "status"] })) ∧
    (create (createErrorRegistry (some { cfg with seekers := none })) data =
      create (createErrorRegistry (some { cfg with seekers := some ["code", "status"] })) data) ∧
    (create (createErrorRegistry (some { cfg with seekers := some [] })) data =
      create (createErrorRegistry (some { cfg with seekers := some ["code", "status"] })) data) ∧
    (handleError (createErrorRegistry (some { cfg with seekers := none })) error ctx =
      handleError (createErrorRegistry (some { cfg with seekers := some ["code", "status"] })) error ctx) ∧
    (handleError (createErrorRegistry (some { cfg with seekers := some [] })) error ctx =
      handleError (createErrorRegistry (some { cfg with seekers := some ["code", "status"] })) error ctx) :=
  ⟨rfl, rfl, rfl, rfl, rfl, rfl⟩

/-- Claim C10: for a creator that is a function (`typeof creator ===
'function'`, true of everything registered through the typed surface),
the constructor-versus-factory decision is purely the `'prototype' in
creator` check — with a prototype it is invoked with `new`, without one
it is called as a plain function. -/
theorem prototype_check_dispatch (creator : ErrorCreator) (data : Record)
    (hfn : creator.isFunction = true) :
    createErrorFromCreator creator data =
      if creator.hasPrototype then creator.construct data
      else creator.call data := by
  unfold createErrorFromCreator
  rw [hfn, Bool.true_and]

/-- An arrow-function factory producing a fixed error: a function value
with no `prototype` property; `new` on it would throw a `TypeError`. -/
def factoryOf (e : JSError) : ErrorCreator :=
  { isFunction := true
    hasPrototype := false
    construct := fun _ => .error (.vStr "TypeError: not a constructor")
    call := fun _ => .ok e }

/-- Witness for `prototype_check_dispatch` at a concrete
prototype-less factory. -/
theorem prototype_check_dispatch_witness :
    createErrorFromCreator (factoryOf ⟨some "WErr", []⟩) (Record.mk []) =
      if (factoryOf ⟨some "WErr", []⟩).hasPrototype
      then (factoryOf ⟨some "WErr", []⟩).construct (Record.mk [])
      else (factoryOf ⟨some "WErr", []⟩).call (Record.mk []) :=
  prototype_check_dispatch (factoryOf ⟨some "WErr", []⟩) (Record.mk []) rfl

/-- Claim C5: when no seeker value's stringified key is registered and
no `baseError` is configured, `createError` returns the generic `Error`,
whose message is `data.message` when that field is a present string and
the literal `"Unknown error"` when it is null/absent. -/
theorem generic_error_fallback (st : RegistryState) (data : Record)
    (hseek : seekCreatorLoop st.errorRegistry data st.seekers = none)
    (hbase : st.baseError = none) :
    create st data = Except.ok (genericError data) ∧
    (∀ m, getField data "message" = .vStr m →
      getErrField (genericError data) "message" = .vStr m) ∧
    (getField data "message" = .vNull →
      getErrField (genericError data) "message" = .vStr "Unknown error") := by
  refine ⟨?_, ?_, ?_⟩
  · rw [create_eq, hseek]
    simp [fallbackCreate, hbase]
  · intro m hm
    simp [genericError, getErrField, hm, jsString]
  · intro hm
    simp [genericError, getErrField, hm]

/-- Witness for `generic_error_fallback`: an empty registry on data
carrying only a message. -/
theorem generic_error_fallback_witness :
    create ⟨["code", "status"], none, [], []⟩
        (Record.mk [("message", .vStr "boom")]) =
      Except.ok (genericError (Record.mk [("message", .vStr "boom")])) ∧
    getErrField (genericError (Record.mk [("message", .vStr "boom")]))
        "message" = .vStr "boom" := by
  have h := generic_error_fallback ⟨["code", "status"], none, [], []⟩
    (Record.mk [("message", .vStr "boom")]) rfl rfl
  exact ⟨h.1, h.2.1 "boom" rfl⟩

/-- Claim C8: a creator selected by the seeker loop, or the configured
`baseError`, that throws makes `createError` propagate exactly that
exception; nothing is caught or wrapped (and `create` reads but never
writes the registry state, which is threaded unchanged). -/
theorem creator_exception_propagates (st : RegistryState) (data : Record)
    (exc : JSValue) :
    (∀ k c, seekCreatorLoop st.errorRegistry data st.seekers = some (k, c) →
      createErrorFromCreator c data = Except.error exc →
      create st data = Except.error exc) ∧
    (seekCreatorLoop st.errorRegistry data st.seekers = none →
      ∀ b, st.baseError = some b →
      createErrorFromCreator b data = Except.error exc →
      create st data = Except.error exc) := by
  constructor
  · intro k c hseek hthrow
    rw [create_eq, hseek]
    exact hthrow
  · intro hseek b hbase hthrow
    rw [create_eq, hseek]
    simp [fallbackCreate, hbase, hthrow]

/-- A factory that always throws the given exception value. -/
def throwingFactory (exc : JSValue) : ErrorCreator :=
  { isFunction := true
    hasPrototype := false
    construct := fun _ => .error exc
    call := fun _ => .error exc }

/-- Witness for `creator_exception_propagates`: a registered throwing
factory selected through the `code` seeker. -/
theorem creator_exception_propagates_witness :
    create ⟨["code", "status"], none,
        [("BOOM", throwingFactory (.vStr "exploded"))], []⟩
      (Record.mk [("code", .vStr "BOOM")]) =
      Except.error (.vStr "exploded") :=
  (creator_exception_propagates ⟨["code", "status"], none,
      [("BOOM", throwingFactory (.vStr "exploded"))], []⟩
    (Record.mk [("code", .vStr "BOOM")]) (.vStr "exploded")).1
    "BOOM" (throwingFactory (.vStr "exploded")) rfl rfl

/-- Claim C6: `createError` is total — whenever the selected creator
(registry hit or `baseError`) returns instead of throwing, `create`
returns a concrete error value; a null/undefined record behaves exactly
like a record matching no seeker (it goes straight to the fallback
chain); and a non-null seeker value — including `false`, `0`, and the
empty string — resolves and selects its registered creator. -/
theorem createError_total (st : RegistryState) (data : Record) :
    ((∀ k c, seekCreatorLoop st.errorRegistry data st.seekers = some (k, c) →
        ∃ e, createErrorFromCreator c data = Except.ok e) →
     (∀ b, st.baseError = some b →
        ∃ e, createErrorFromCreator b data = Except.ok e) →
     ∃ e, create st data = Except.ok e) ∧
    (create st Record.null = fallbackCreate st Record.null) ∧
    (∀ s v c, st.seekers = [s] → getField data s = v → v ≠ .vNull →
      mapGet st.errorRegistry (jsString v) = some c →
      create st data = createErrorFromCreator c data) := by
  refine ⟨?_, ?_, ?_⟩
  · intro hcreators hbase
    rw [create_eq]
    cases hseek : seekCreatorLoop st.errorRegistry data st.seekers with
    | some p =>
      obtain ⟨k, c⟩ := p
      exact hcreators k c hseek
    | none =>
      cases hb : st.baseError with
      | some b =>
        obtain ⟨e, he⟩ := hbase b hb
        exact ⟨e, by simp [fallbackCreate, hb, he]⟩
      | none =>
        exact ⟨genericError data, by simp [fallbackCreate, hb]⟩
  · rw [create_eq, seekCreatorLoop_null_record]
  · intro s v c hs hv hnull hget
    rw [create_eq, hs, seekCreatorLoop_hit st.errorRegistry data s [] c
      (hv ▸ hnull) (hv ▸ hget)]

/-- Witness for `createError_total`: the empty registry on the empty
record returns a generic error; both hypotheses are vacuous there. -/
theorem createError_total_witness :
    ∃ e, create ⟨["code", "status"], none, [], []⟩ (Record.mk []) =
      Except.ok e := by
  refine (createError_total ⟨["code", "status"], none, [], []⟩
    (Record.mk [])).1 ?_ ?_
  · intro k c h
    exact nomatch h
  · intro b hb
    exact nomatch hb

/-- Claim C4: seeker resolution is order-stable for both operations —
when every seeker before `s` has a null value or an unregistered key and
`s` has a non-null value with a registered key, `createError` uses
exactly that creator and `handleError` exactly that handler, whatever
later seekers would resolve to. -/
theorem seeker_order_stable (st : RegistryState) (data : Record)
    (error : JSError) (ctx : List JSValue) (pre rest : List String)
    (s : String) (c : ErrorCreator) (hh : Handler) :
    (st.seekers = pre ++ s :: rest →
      (∀ s' ∈ pre, getField data s' = .vNull ∨
        mapGet st.errorRegistry (jsString (getField data s')) = none) →
      getField data s ≠ .vNull →
      mapGet st.errorRegistry (jsString (getField data s)) = some c →
      create st data = createErrorFromCreator c data) ∧
    (st.seekers = pre ++ s :: rest →
      (∀ s' ∈ pre, getErrField error s' = .vNull ∨
        mapGet st.handlerRegistry (jsString (getErrField error s')) = none) →
      getErrField error s ≠ .vNull →
      mapGet st.handlerRegistry (jsString (getErrField error s)) = some hh →
      handleError st error ctx = invokeHandler hh error ctx) := by
  constructor
  · intro hs hpre hnull hget
    rw [create_eq, hs, seekCreatorLoop_append_skip st.errorRegistry data pre
      (s :: rest) hpre, seekCreatorLoop_hit st.errorRegistry data s rest c
      hnull hget]
  · intro hs hpre hnull hget
    rw [handleError_eq, hs, seekHandlerLoop_append_skip st.handlerRegistry
      error pre (s :: rest) hpre, seekHandlerLoop_hit st.handlerRegistry
      error s rest hh hnull hget]

/-- A handler that always succeeds, identified by its number. -/
def okHandler (n : Nat) : Handler := ⟨n, fun _ _ => .ok ()⟩

/-- Witness for `seeker_order_stable`: the spec's concrete scenario —
seekers `["a", "b"]`, data/error carrying `a = "K1"` and `b = "K2"` with
both keys registered: `"K1"`'s creator and handler win. -/
theorem seeker_order_stable_witness :
    create ⟨["a", "b"], none,
        [("K1", factoryOf ⟨some "E1", []⟩), ("K2", factoryOf ⟨some "E2", []⟩)],
        [("K1", okHandler 1), ("K2", okHandler 2)]⟩
      (Record.mk [("a", .vStr "K1"), ("b", .vStr "K2")]) =
      Except.ok ⟨some "E1", []⟩ ∧
    handleError ⟨["a", "b"], none,
        [("K1", factoryOf ⟨some "E1", []⟩), ("K2", factoryOf ⟨some "E2", []⟩)],
        [("K1", okHandler 1), ("K2", okHandler 2)]⟩
      ⟨some "E1", [("a", .vStr "K1"), ("b", .vStr "K2")]⟩ [] =
      Except.ok (some ⟨1, ⟨some "E1", [("a", .vStr "K1"), ("b", .vStr "K2")]⟩, []⟩) := by
  have h := seeker_order_stable ⟨["a", "b"], none,
      [("K1", factoryOf ⟨some "E1", []⟩), ("K2", factoryOf ⟨some "E2", []⟩)],
      [("K1", okHandler 1), ("K2", okHandler 2)]⟩
    (Record.mk [("a", .vStr "K1"), ("b", .vStr "K2")])
    ⟨some "E1", [("a", .vStr "K1"), ("b", .vStr "K2")]⟩ [] [] ["b"] "a"
    (factoryOf ⟨some "E1", []⟩) (okHandler 1)
  constructor
  · exact (h.1 rfl (by simp) (by decide) rfl).trans rfl
  · exact (h.2 rfl (by simp) (by decide) rfl).trans rfl

/-- Fixture for C3: only `"K"` is registered, under seekers
`["a", "b"]`, with no `baseError`. -/
def stC3 : RegistryState :=
  ⟨["a", "b"], none, [("K", factoryOf ⟨some "KError", [("message", .vStr "from K")]⟩)], []⟩

/-- Fixture for C3: the first seeker `"a"` has the non-null value
`"X"`, which is not a registered key; the later seeker `"b"` resolves to
the registered key `"K"`. -/
def dataC3 : Record := .mk [("a", .vStr "X"), ("b", .vStr "K")]

/-- Counterexample to claim C3: the first seeker with a non-null value
(`"a"`, yielding the unregistered key `"X"`) does NOT send `createError`
to the fallback chain — the scan continues, the later seeker `"b"`
resolves to the registered key `"K"`, and its creator's instance is
returned instead of the generic `Error` the claim requires (no
`baseError` is configured). -/
theorem seeker_scan_not_positional_cex :
    getField dataC3 "a" = .vStr "X" ∧
    mapGet stC3.errorRegistry "X" = none ∧
    stC3.baseError = none ∧
    create stC3 dataC3 =
      Except.ok ⟨some "KError", [("message", .vStr "from K")]⟩ ∧
    (⟨some "KError", [("message", .vStr "from K")]⟩ : JSError) ≠
      genericError dataC3 :=
  ⟨rfl, rfl, rfl, rfl, by decide⟩

/-- Claim C3 (amended): resolution is not positional — a seeker whose
value is null or whose stringified key has no entry in the error-creator
mapping is skipped and `createError` continues with the remaining
seekers, exactly as if that seeker were not configured. -/
theorem seeker_scan_continues (st : RegistryState) (data : Record)
    (s : String) (rest : List String)
    (hs : st.seekers = s :: rest)
    (hmiss : getField data s = .vNull ∨
      mapGet st.errorRegistry (jsString (getField data s)) = none) :
    create st data = create { st with seekers := rest } data := by
  rw [create_eq, create_eq, hs]
  rw [seekCreatorLoop_skip st.errorRegistry data s rest hmiss]
  rfl

/-- Witness for `seeker_scan_continues` at the C3 fixture: skipping the
missing key `"X"` at seeker `"a"` leaves the behaviour of the registry
restricted to seeker `"b"`. -/
theorem seeker_scan_continues_witness :
    create stC3 dataC3 = create { stC3 with seekers := ["b"] } dataC3 :=
  seeker_scan_continues stC3 dataC3 "a" ["b"] rfl (Or.inr rfl)

/-- Fixture for C2: `"K1"` and `"K2"` registered, a `baseError`
configured, seekers `["a", "b"]`. -/
def stC2 : RegistryState :=
  ⟨["a", "b"], some (factoryOf ⟨some "BaseError", []⟩),
    [("K1", factoryOf ⟨some "E1", []⟩), ("K2", factoryOf ⟨some "E2", []⟩)], []⟩

/-- Fixture for C2: seeker `"a"` resolves to `"K1"`, seeker `"b"` to
`"K2"`. -/
def dataC2 : Record := .mk [("a", .vStr "K1"), ("b", .vStr "K2")]

/-- Counterexample to claim C2: before unregistration the data resolves
to `"K1"`; after `unregisterError("K1")` the call does NOT fall through
to the configured `baseError` — the scan moves on to seeker `"b"` and
returns the instance of `"K2"`'s still-registered creator. -/
theorem unregisterError_fallthrough_cex :
    create stC2 dataC2 = Except.ok ⟨some "E1", []⟩ ∧
    create (unregisterError stC2 (.vStr "K1")) dataC2 =
      Except.ok ⟨some "E2", []⟩ ∧
    (⟨some "E2", []⟩ : JSError) ≠ (⟨some "BaseError", []⟩ : JSError) ∧
    stC2.baseError = some (factoryOf ⟨some "BaseError", []⟩) :=
  ⟨rfl, rfl, by decide, rfl⟩

/-- Claim C2 (amended): after `unregisterError(k)` the creator slot for
`k` can never be selected again — any seeker-loop hit is under a key
different from the normalised `k` — and when no seeker value's key
remains registered, `createError` falls through to `baseError` or the
generic `Error`. -/
theorem unregisterError_removes_key (st : RegistryState) (key : JSValue)
    (data : Record) :
    (∀ k c, seekCreatorLoop (unregisterError st key).errorRegistry data
        (unregisterError st key).seekers = some (k, c) → k ≠ jsString key) ∧
    (seekCreatorLoop (unregisterError st key).errorRegistry data
        (unregisterError st key).seekers = none →
      create (unregisterError st key) data = fallbackCreate st data) := by
  constructor
  · intro k c hhit hk
    have hget := seekCreatorLoop_get_of_some _ data _ k c hhit
    rw [hk] at hget
    have : mapGet (unregisterError st key).errorRegistry (jsString key) =
        none := mapGet_mapDelete_self st.errorRegistry (jsString key)
    rw [this] at hget
    exact nomatch hget
  · intro hseek
    rw [create_eq, hseek]
    rfl

/-- Witness for `unregisterError_removes_key`: both conjuncts applied
at concrete registries — a post-deletion hit lands on `"K2"`, not on the
removed `"K1"`; and with the only key `"TEST"` removed, `createError`
falls through (here to the generic `Error`). -/
theorem unregisterError_removes_key_witness :
    (("K2" : String) ≠ jsString (.vStr "K1")) ∧
    create (unregisterError
        ⟨["code", "status"], none, [("TEST", factoryOf ⟨some "TestError", []⟩)], []⟩
        (.vStr "TEST"))
      (Record.mk [("code", .vStr "TEST"), ("message", .vStr "Test")]) =
      fallbackCreate
        ⟨["code", "status"], none, [("TEST", factoryOf ⟨some "TestError", []⟩)], []⟩
        (Record.mk [("code", .vStr "TEST"), ("message", .vStr "Test")]) :=
  ⟨(unregisterError_removes_key stC2 (.vStr "K1") dataC2).1 "K2"
      (factoryOf ⟨some "E2", []⟩) rfl,
   (unregisterError_removes_key
      ⟨["code", "status"], none, [("TEST", factoryOf ⟨some "TestError", []⟩)], []⟩
      (.vStr "TEST")
      (Record.mk [("code", .vStr "TEST"), ("message", .vStr "Test")])).2 rfl⟩

/-- Fixture for C7: a handler registered under the empty-string key. -/
def stC7 : RegistryState := ⟨["code"], none, [], [("", okHandler 7)]⟩

/-- Fixture for C7: an error whose constructor is an anonymous class,
so its constructor name is the empty string; it has no seeker fields. -/
def errC7 : JSError := ⟨some "", []⟩

/-- Counterexample to claim C7: a handler entry exists under the
error's concrete constructor name (the empty string, as produced by an
anonymous class), no seeker locates a handler, yet `handleError` does
not invoke it — the truthiness test `if (constructorName)` rejects an
empty name, so the call resolves with no invocation. -/
theorem ctor_name_empty_skipped_cex :
    errC7.ctorName = some "" ∧
    mapGet stC7.handlerRegistry "" = some (okHandler 7) ∧
    handleError stC7 errC7 [] = Except.ok none :=
  ⟨rfl, rfl, rfl⟩

/-- Claim C7 (amended): when the seeker loop locates no handler,
`handleError` falls back to the error's constructor name provided that
name is a non-empty string, invoking the handler found there with
exactly `(error, ...context)`; and when neither path finds a handler
(an empty or missing constructor name included), it resolves normally
with no invocation and no exception. -/
theorem handleError_ctor_name_fallback (st : RegistryState)
    (error : JSError) (ctx : List JSValue) :
    (∀ name hh, seekHandlerLoop st.handlerRegistry error st.seekers = none →
      error.ctorName = some name → name ≠ "" →
      mapGet st.handlerRegistry name = some hh →
      hh.run error ctx = Except.ok () →
      handleError st error ctx = Except.ok (some ⟨hh.hid, error, ctx⟩)) ∧
    (seekHandlerLoop st.handlerRegistry error st.seekers = none →
      (∀ name, error.ctorName = some name → name ≠ "" →
        mapGet st.handlerRegistry name = none) →
      handleError st error ctx = Except.ok none) := by
  constructor
  · intro name hh hseek hname hne hget hrun
    rw [handleError_eq, hseek]
    unfold ctorNameFallback
    rw [hname]
    simp [hne, hget, invokeHandler, hrun]
  · intro hseek hmiss
    rw [handleError_eq, hseek]
    unfold ctorNameFallback
    cases hname : error.ctorName with
    | none => rfl
    | some name =>
      by_cases hne : name = ""
      · simp [hne]
      · simp [hne, hmiss name hname hne]

/-- Witness for `handleError_ctor_name_fallback`: no seeker field on
the error, a handler registered under `"NotFoundError"`, the error's
constructor name — the handler runs with the error and both context
values in order. -/
theorem handleError_ctor_name_fallback_witness :
    handleError ⟨["code"], none, [], [("NotFoundError", okHandler 8)]⟩
      ⟨some "NotFoundError", []⟩ [.vNum 1, .vStr "ctx"] =
      Except.ok (some ⟨8, ⟨some "NotFoundError", []⟩, [.vNum 1, .vStr "ctx"]⟩) :=
  (handleError_ctor_name_fallback
      ⟨["code"], none, [], [("NotFoundError", okHandler 8)]⟩
      ⟨some "NotFoundError", []⟩ [.vNum 1, .vStr "ctx"]).1
    "NotFoundError" (okHandler 8) rfl rfl (by decide) rfl rfl
